import Mathlib

/-!
# Verification of go-gpiosim (warthog618/go-gpiosim)

A shallow embedding of the configuration lifecycle manager and the
line-attribute access protocol of the go-gpiosim library.

The external world (configfs/sysfs) is modelled as an explicit state `FS`:
a flat collection of directories, text files and symlinks keyed by their
full path strings, plus fault-injection sets that let an operation fail at
a chosen path (modelling kernel-side write/read/mkdir errors), and oracle
fields for the bits of the environment the library merely reads (process
identity, `/proc/mounts` content, the outcomes of the external `modprobe`
and `mount` commands).  Every state-changing primitive appends an event to
`FS.trace`, so ordering claims about the construction sequence can be
stated as facts about the trace.

Each definition is a direct translation of the corresponding Go function
in `sim.go` / `bank.go` (`chip.go`, `attrs.go`): pure functions become
Lean functions, filesystem-mutating code threads the `FS` state
explicitly, and fallible calls return `Except String`.  Go's
`(value, error)` returns of composite build/teardown steps, which leave
partial filesystem state behind on failure, are rendered as
`FS × Option String` (the state reached, and the first error if any).
-/

deriving instance DecidableEq for Except

namespace Gpiosim

/-- Filesystem events, recorded in order by the state-changing primitives.
One constructor per OS call made by the library. -/
inductive FsOp where
  | mkdirAll (p : String)
  | mkdir (p : String)
  | write (p : String) (v : String)
  | remove (p : String)
deriving DecidableEq, Repr

/-- The modelled external world: a flat filesystem (full path strings) with
fault-injection sets, plus oracles for environment reads.
`modprobeOk`/`mountOk` are the exit statuses of the external commands run by
the environment resolver; their kernel-side side effects are outside this
model (the modelled filesystem is not changed by them). -/
structure FS where
  dirs : List String
  files : List (String × String)
  symlinks : List String
  failMkdirs : List String
  failWrites : List String
  failReads : List String
  procMounts : List String
  mountOk : Bool
  modprobeOk : Bool
  progName : String
  pid : Nat
  simCounter : Nat
  trace : List FsOp
deriving DecidableEq, Repr

/-- An empty world, used as the base for concrete test states. -/
def emptyFS : FS :=
  { dirs := [], files := [], symlinks := [], failMkdirs := [], failWrites := [],
    failReads := [], procMounts := [], mountOk := false, modprobeOk := false,
    progName := "gpiosim", pid := 1, simCounter := 0, trace := [] }

/-- `path.Join` for the two-component joins used throughout the library. -/
def pjoin (a b : String) : String := a ++ "/" ++ b

/-- First-match lookup in the file table. -/
def lookupFile : List (String × String) → String → Option String
  | [], _ => none
  | (k, v) :: rest, p => if k = p then some v else lookupFile rest p

/-- Create-or-truncate a file (the semantics of a successful `os.WriteFile`). -/
def setFile : List (String × String) → String → String → List (String × String)
  | [], p, v => [(p, v)]
  | (k, w) :: rest, p, v => if k = p then (p, v) :: rest else (k, w) :: setFile rest p v

/-- Delete a file entry, if present. -/
def delFile (l : List (String × String)) (p : String) : List (String × String) :=
  l.filter (fun kv => kv.1 ≠ p)

/-- Go `unicode.IsSpace`: the Unicode white-space code points. -/
def goIsSpace (ch : Char) : Bool :=
  ch = ' ' || ch = '\t' || ch = '\n' || ch = '\x0b' || ch = '\x0c' || ch = '\r' ||
  ch = '\u0085' || ch = '\u00a0' || ch = '\u1680' ||
  ('\u2000' ≤ ch && ch ≤ '\u200a') ||
  ch = '\u2028' || ch = '\u2029' || ch = '\u202f' || ch = '\u205f' || ch = '\u3000'

/-- Go `strings.TrimSpace`: drops white space from both ends of the string,
leaving interior characters unchanged. -/
def goTrimSpace (s : String) : String :=
  String.mk (((s.data.dropWhile goIsSpace).reverse.dropWhile goIsSpace).reverse)

/-- `os.Stat` succeeds exactly when the path exists (as dir, file or symlink). -/
def FS.stat (fs : FS) (p : String) : Bool :=
  fs.dirs.contains p || (lookupFile fs.files p).isSome || fs.symlinks.contains p

/-- `os.Lstat`: reports whether the path is a symlink; fails if the path is absent. -/
def FS.lstat (fs : FS) (p : String) : Except String Bool :=
  if fs.symlinks.contains p then .ok true
  else if fs.dirs.contains p || (lookupFile fs.files p).isSome then .ok false
  else .error ("lstat " ++ p ++ ": no such file or directory")

/-- Split a character list at each `'/'` (the path separator), keeping empty
segments — the behavior of splitting a path string on `"/"`. -/
def splitOnSlash : List Char → List (List Char)
  | [] => [[]]
  | c :: rest =>
    match splitOnSlash rest with
    | [] => [[]]
    | seg :: segs => if c = '/' then [] :: seg :: segs else (c :: seg) :: segs

/-- All the directories `os.MkdirAll p` ensures exist: the prefixes of `p` at
each path-separator boundary, `p` itself included. -/
def ancestors (p : String) : List String :=
  (((splitOnSlash p.data).map String.mk).foldl
    (fun acc part =>
      match acc with
      | [] => [part]
      | last :: _ => (last ++ "/" ++ part) :: acc) []).reverse.filter (fun q => q ≠ "")

/-- Add a directory if not already present. -/
def addDir (ds : List String) (d : String) : List String :=
  if ds.contains d then ds else d :: ds

/-- `os.MkdirAll`: creates the directory and all its ancestors; succeeds when the
directory already exists.  Fails only by injection (`failMkdirs`). -/
def FS.mkdirAll (fs : FS) (p : String) : Except String FS :=
  if fs.failMkdirs.contains p then .error ("mkdir " ++ p ++ ": failed")
  else .ok { fs with dirs := (ancestors p).foldl addDir fs.dirs,
                     trace := fs.trace ++ [FsOp.mkdirAll p] }

/-- `os.Mkdir`: creates a single directory; fails if it already exists or by
injection. -/
def FS.mkdir (fs : FS) (p : String) : Except String FS :=
  if fs.failMkdirs.contains p || fs.dirs.contains p then
    .error ("mkdir " ++ p ++ ": failed")
  else .ok { fs with dirs := addDir fs.dirs p, trace := fs.trace ++ [FsOp.mkdir p] }

/-- `os.Remove`, as used by the teardown code: its error result is discarded at
every call site in the source, so the model returns only the new state, with
the path (file, dir or symlink) deleted when present. -/
def FS.remove (fs : FS) (p : String) : FS :=
  { fs with dirs := fs.dirs.filter (fun d => d ≠ p),
            files := delFile fs.files p,
            symlinks := fs.symlinks.filter (fun d => d ≠ p),
            trace := fs.trace ++ [FsOp.remove p] }

/-- `writeAttr` (attrs.go): `os.WriteFile(path.Join(p, attr), value, 0666)`.
Fails when the containing directory is absent, or by injection at the full
path (modelling a kernel-rejected attribute write); otherwise
creates-or-overwrites the attribute file. -/
def writeAttr (fs : FS) (p attr value : String) : Except String FS :=
  if fs.failWrites.contains (pjoin p attr) || !(fs.dirs.contains p) then
    .error ("open " ++ pjoin p attr ++ ": no such file or directory")
  else .ok { fs with files := setFile fs.files (pjoin p attr) value,
                     trace := fs.trace ++ [FsOp.write (pjoin p attr) value] }

/-- `readAttr` (attrs.go): `os.ReadFile(path.Join(p, attr))` followed by
`strings.TrimSpace` on the content. -/
def readAttr (fs : FS) (p attr : String) : Except String String :=
  if fs.failReads.contains (pjoin p attr) then
    .error ("read " ++ pjoin p attr ++ ": failed")
  else
    match lookupFile fs.files (pjoin p attr) with
    | some d => .ok (goTrimSpace d)
    | none => .error ("open " ++ pjoin p attr ++ ": no such file or directory")

/-! ## Data model (bank.go) -/

/-- `HogDirection` is a Go `int` (`type HogDirection int`). -/
abbrev HogDirection := Int

/-- Hogged line requested as an input. -/
def HogDirectionInput : HogDirection := 0

/-- Hogged line requested as an output pulled low. -/
def HogDirectionOutputLow : HogDirection := 1

/-- Hogged line requested as an output pulled high. -/
def HogDirectionOutputHigh : HogDirection := 2

/-- `Hog`: the details of a line hog. -/
structure Hog where
  Consumer : String
  Direction : HogDirection
deriving DecidableEq, Repr

/-- `Bank`: the configuration of one simulated chip.  Go's
`map[int]string` / `map[int]Hog` (unordered, unique keys) are rendered as
association lists; iteration order is the list order, matching the
arbitrary iteration order of a Go map. -/
structure Bank where
  NumLines : Int
  Label : String
  Names : List (Int × String)
  Hogs : List (Int × Hog)
deriving DecidableEq, Repr

/-- `NewBank` before options are applied. -/
def NewBank (label : String) (numLines : Int) : Bank :=
  { NumLines := numLines, Label := label, Names := [], Hogs := [] }

/-- `Chip` (chip.go): a live simulated gpiochip. -/
structure Chip where
  configfsPath : String
  devPath : String
  chipName : String
  devName : String
  sysfsPath : String
  cfg : Bank
deriving DecidableEq, Repr

/-- `Sim` (sim.go): a live simulator. -/
structure Sim where
  Name : String
  Chips : List Chip
  configfsPath : String
deriving DecidableEq, Repr

/-- `LevelInactive` (chip.go). -/
def LevelInactive : Int := 0

/-- `LevelActive` (chip.go). -/
def LevelActive : Int := 1

/-! ## Chip line-control facade (chip.go) -/

/-- `Chip.attr`: read line attribute `name` of the line at `offset` from sysfs. -/
def Chip.attr (c : Chip) (fs : FS) (offset : Int) (name : String) : Except String String :=
  readAttr fs (pjoin c.sysfsPath ("sim_gpio" ++ toString offset)) name

/-- `Chip.setAttr`: write line attribute `name` of the line at `offset` to sysfs. -/
def Chip.setAttr (c : Chip) (fs : FS) (offset : Int) (name value : String) : Except String FS :=
  writeAttr fs (pjoin c.sysfsPath ("sim_gpio" ++ toString offset)) name value

/-- `Chip.Config`: the configuration used for the chip. -/
def Chip.Config (c : Chip) : Bank := c.cfg

/-- `Chip.Pull`: reads the `pull` attribute and maps `"pull-down"`/`"pull-up"`
to `LevelInactive`/`LevelActive`; any other text is an error.  (The Go function
returns `(LevelInactive, err)` on error; only the error is observable then,
so the pair collapses to `Except`.) -/
def Chip.Pull (c : Chip) (fs : FS) (offset : Int) : Except String Int :=
  match c.attr fs offset "pull" with
  | .error e => .error e
  | .ok v =>
    if v = "pull-down" then .ok LevelInactive
    else if v = "pull-up" then .ok LevelActive
    else .error ("unexpected pull value: " ++ v)

/-- `Chip.SetPull`: writes `"pull-up"` when `level == LevelActive`, else
`"pull-down"`. -/
def Chip.SetPull (c : Chip) (fs : FS) (offset level : Int) : Except String FS :=
  c.setAttr fs offset "pull" (if level = LevelActive then "pull-up" else "pull-down")

/-- `Chip.Pulldown`. -/
def Chip.Pulldown (c : Chip) (fs : FS) (offset : Int) : Except String FS :=
  c.SetPull fs offset LevelInactive

/-- `Chip.Pullup`. -/
def Chip.Pullup (c : Chip) (fs : FS) (offset : Int) : Except String FS :=
  c.SetPull fs offset LevelActive

/-- `Chip.Toggle`: reads the current pull and writes its inverse. -/
def Chip.Toggle (c : Chip) (fs : FS) (offset : Int) : Except String FS :=
  match c.Pull fs offset with
  | .error e => .error e
  | .ok p => c.SetPull fs offset (if p = 0 then 1 else 0)

/-- `Chip.Level`: reads the `value` attribute and maps `"0"`/`"1"` to
`LevelInactive`/`LevelActive`; any other text is an error. -/
def Chip.Level (c : Chip) (fs : FS) (offset : Int) : Except String Int :=
  match c.attr fs offset "value" with
  | .error e => .error e
  | .ok v =>
    if v = "0" then .ok LevelInactive
    else if v = "1" then .ok LevelActive
    else .error ("unexpected level value: " ++ v)

/-! ## Naming service and environment resolver (sim.go) -/

/-- `appName`: the basename of the running executable, with a fallback
`"gpiosim"`.  The executable lookup is an environment read, held in the
oracle field `FS.progName` (already the resolved basename or the fallback). -/
def appName (fs : FS) : String := fs.progName

/-- `uniqueName`: `fmt.Sprintf("%s-p%d-%d", appName(), os.Getpid(),
atomic.AddUint32(&simCounter, 1))`.  `AddUint32` returns the incremented
counter value; a single activation observes `simCounter + 1`.  The
process-global increment itself is not observable within one call, so the
counter is left unthreaded. -/
def uniqueName (fs : FS) : String :=
  appName fs ++ "-p" ++ toString fs.pid ++ "-" ++ toString (fs.simCounter + 1)

/-- Go `strings.Fields`, restricted to the space separator used in
`/proc/mounts` lines. -/
def goFields (s : String) : List String :=
  (s.splitOn " ").filter (fun w => w ≠ "")

/-- `configfsMountPoint`: scan the `/proc/mounts` lines for the first entry of
type `configfs` and return its mount point; otherwise attempt the external
`mount` command (exit status `FS.mountOk`) and fall back to
`/sys/kernel/config`. -/
def configfsMountPoint (fs : FS) : Except String String :=
  match fs.procMounts.find? (fun line =>
      (goFields line).length ≥ 6 && (goFields line).get? 2 = some "configfs") with
  | some line => .ok (((goFields line).get? 1).getD "")
  | none =>
    if fs.mountOk then .ok "/sys/kernel/config"
    else .error ("can't find configfs mountpoint")

/-- `findConfigfsPath`: locate `gpio-sim` in configfs — the well-known default,
then a `modprobe` attempt and recheck, then the mount-table scan.  The
external `modprobe`/`mount` commands do not alter the modelled filesystem,
so the post-`modprobe` recheck consults the same state. -/
def findConfigfsPath (fs : FS) : Except String String :=
  if fs.stat "/sys/kernel/config/gpio-sim" then .ok "/sys/kernel/config/gpio-sim"
  else if fs.modprobeOk && fs.stat "/sys/kernel/config/gpio-sim" then
    .ok "/sys/kernel/config/gpio-sim"
  else
    match configfsMountPoint fs with
    | .ok mp =>
      if fs.stat (pjoin mp "gpio-sim") then .ok (pjoin mp "gpio-sim")
      else .error ("gpio-sim module not loaded")
    | .error _ => .error ("gpio-sim module not loaded")

/-! ## Configuration builder / lifecycle manager (sim.go) -/

/-- `hogDirectionToString`: the fixed direction vocabulary used when
configuring the gpio-sim. -/
def hogDirectionToString (d : HogDirection) : String :=
  if d = HogDirectionOutputLow then "output-low"
  else if d = HogDirectionOutputHigh then "output-high"
  else "input"

/-- The named-line loop body of `setupConfigfs`: create the line directory and
write its `name` attribute, for each named line in turn; stops at the first
error, returning the state built so far. -/
def setupLines (bankPath : String) : FS → List (Int × String) → FS × Option String
  | fs, [] => (fs, none)
  | fs, (o, n) :: rest =>
    match fs.mkdir (pjoin bankPath ("line" ++ toString o)) with
    | .error e => (fs, some e)
    | .ok fs1 =>
      match writeAttr fs1 (pjoin bankPath ("line" ++ toString o)) "name" n with
      | .error e => (fs1, some e)
      | .ok fs2 => setupLines bankPath fs2 rest

/-- The hogged-line loop body of `setupConfigfs`: create the line's `hog`
subdirectory, write `name` (the consumer), then write `direction`; stops at
the first error, returning the state built so far. -/
def setupHogs (bankPath : String) : FS → List (Int × Hog) → FS × Option String
  | fs, [] => (fs, none)
  | fs, (o, h) :: rest =>
    match fs.mkdirAll (pjoin (pjoin bankPath ("line" ++ toString o)) "hog") with
    | .error e => (fs, some e)
    | .ok fs1 =>
      match writeAttr fs1 (pjoin (pjoin bankPath ("line" ++ toString o)) "hog")
          "name" h.Consumer with
      | .error e => (fs1, some e)
      | .ok fs2 =>
        match writeAttr fs2 (pjoin (pjoin bankPath ("line" ++ toString o)) "hog")
            "direction" (hogDirectionToString h.Direction) with
        | .error e => (fs2, some e)
        | .ok fs3 => setupHogs bankPath fs3 rest

/-- One iteration of the bank loop of `setupConfigfs`: create the bank
directory, write `label` then `num_lines`, then the named lines, then the
hogged lines. -/
def setupBank (cp : String) (fs : FS) (i : Nat) (c : Chip) : FS × Option String :=
  match fs.mkdirAll (pjoin cp ("bank" ++ toString i)) with
  | .error e => (fs, some e)
  | .ok fs1 =>
    match writeAttr fs1 (pjoin cp ("bank" ++ toString i)) "label" c.cfg.Label with
    | .error e => (fs1, some e)
    | .ok fs2 =>
      match writeAttr fs2 (pjoin cp ("bank" ++ toString i)) "num_lines"
          (toString c.cfg.NumLines) with
      | .error e => (fs2, some e)
      | .ok fs3 =>
        match setupLines (pjoin cp ("bank" ++ toString i)) fs3 c.cfg.Names with
        | (fs4, some e) => (fs4, some e)
        | (fs4, none) => setupHogs (pjoin cp ("bank" ++ toString i)) fs4 c.cfg.Hogs

/-- The bank loop of `setupConfigfs`, indexed from `i`. -/
def setupBanks (cp : String) : FS → Nat → List Chip → FS × Option String
  | fs, _, [] => (fs, none)
  | fs, i, c :: rest =>
    match setupBank cp fs i c with
    | (fs1, some e) => (fs1, some e)
    | (fs1, none) => setupBanks cp fs1 (i + 1) rest

/-- `Sim.setupConfigfs`: construct the whole gpio-sim configuration tree. -/
def Sim.setupConfigfs (s : Sim) (fs : FS) : FS × Option String :=
  setupBanks s.configfsPath fs 0 s.Chips

/-- The hogged-line removals of `cleanupConfigfs` (errors discarded). -/
def removeHogLines (bankPath : String) : FS → List (Int × Hog) → FS
  | fs, [] => fs
  | fs, (o, _) :: rest =>
    removeHogLines bankPath
      (((fs.remove (pjoin (pjoin bankPath ("line" ++ toString o)) "hog")).remove
        (pjoin bankPath ("line" ++ toString o)))) rest

/-- The named-line removals of `cleanupConfigfs` (errors discarded). -/
def removeNamedLines (bankPath : String) : FS → List (Int × String) → FS
  | fs, [] => fs
  | fs, (o, _) :: rest =>
    removeNamedLines bankPath (fs.remove (pjoin bankPath ("line" ++ toString o))) rest

/-- One iteration of the bank loop of `cleanupConfigfs`: skip the bank if its
directory fails `os.Stat`; otherwise remove hogs, named lines, then the bank
directory. -/
def cleanupChip (cp : String) (fs : FS) (i : Nat) (c : Chip) : FS :=
  if fs.stat (pjoin cp ("bank" ++ toString i)) then
    ((removeNamedLines (pjoin cp ("bank" ++ toString i))
        (removeHogLines (pjoin cp ("bank" ++ toString i)) fs c.cfg.Hogs)
        c.cfg.Names).remove (pjoin cp ("bank" ++ toString i)))
  else fs

/-- The bank loop of `cleanupConfigfs`, indexed from `i`. -/
def cleanupChips (cp : String) : FS → Nat → List Chip → FS
  | fs, _, [] => fs
  | fs, i, c :: rest => cleanupChips cp (cleanupChip cp fs i c) (i + 1) rest

/-- `Sim.cleanupConfigfs`: write `live = "0"` — returning that error at once if
the write fails — then remove each still-present bank subtree and finally the
configuration root. -/
def Sim.cleanupConfigfs (s : Sim) (fs : FS) : FS × Option String :=
  match writeAttr fs s.configfsPath "live" "0" with
  | .error e => (fs, some e)
  | .ok fs1 => ((cleanupChips s.configfsPath fs1 0 s.Chips).remove s.configfsPath, none)

/-- `Sim.Close`: run `cleanupConfigfs` (its error discarded) and clear the chip
list.  `Close` itself returns no error. -/
def Sim.Close (s : Sim) (fs : FS) : Sim × FS :=
  ({ s with Chips := [] }, (s.cleanupConfigfs fs).1)

/-- The `Chip{cfg: k}` literal of `live`: a chip holding only its
configuration, other fields zero-valued. -/
def initialChip (k : Bank) : Chip :=
  { configfsPath := "", devPath := "", chipName := "", devName := "",
    sysfsPath := "", cfg := k }

/-- The activation step of `live` (sim.go lines 166–169): run
`setupConfigfs` and, when it succeeds, write `live = "1"` at the
configuration root; the first error and the state reached are returned. -/
def Sim.activateTree (s : Sim) (fs : FS) : FS × Option String :=
  match s.setupConfigfs fs with
  | (fs1, some e) => (fs1, some e)
  | (fs1, none) =>
    match writeAttr fs1 s.configfsPath "live" "1" with
    | .error e => (fs1, some e)
    | .ok fs2 => (fs2, none)

/-- The two ways the read-back loop of `live` returns an error: `closeErr`
for the `chip_name` read failure (the source calls `s.Close()` before
returning it) and `bareErr` for the `os.Lstat` failure and the symlink
detection (the source returns those without calling `Close`). -/
inductive ReadBackErr where
  | closeErr (e : String)
  | bareErr (e : String)
deriving DecidableEq, Repr

/-- The read-back loop of `live` (sim.go lines 179–199): for each chip, read
its kernel-assigned `chip_name`, check `/dev/<chip_name>` is not masked by a
symlink, and fill in the kernel-assigned identity fields.  The loop performs
no writes, so it does not thread the state. -/
def readBackChips (fs : FS) (devName cp : String) : Nat → List Chip → Except ReadBackErr (List Chip)
  | _, [] => .ok []
  | i, c :: rest =>
    match readAttr fs (pjoin cp ("bank" ++ toString i)) "chip_name" with
    | .error e => .error (.closeErr e)
    | .ok chipName =>
      match fs.lstat (pjoin "/dev" chipName) with
      | .error e => .error (.bareErr e)
      | .ok isLink =>
        if isLink then
          .error (.bareErr ("A symlink (" ++ pjoin "/dev" chipName ++
            ") is masking GPIO device " ++ chipName))
        else
          match readBackChips fs devName cp (i + 1) rest with
          | .error e => .error e
          | .ok cs =>
            .ok ({ c with devName := devName, chipName := chipName,
                          devPath := pjoin "/dev" chipName,
                          sysfsPath := pjoin (pjoin "/sys/devices/platform" devName)
                            chipName } :: cs)

/-- `builder` (sim.go): the information required to build a sim. -/
structure builder where
  name : String
  banks : List Bank
deriving DecidableEq, Repr

/-- `builder.live` (sim.go lines 146–201): reject an empty bank list, resolve
a name and the configfs root, reject a name conflict, construct the tree and
take it live (rolling back with `Close` on failure), then read back the
kernel-assigned identifiers. -/
def builder.live (b : builder) (fs : FS) : Except String Sim × FS :=
  if b.banks.length = 0 then (.error "no banks defined", fs)
  else
    let nm := if b.name.length = 0 then uniqueName fs else b.name
    match findConfigfsPath fs with
    | .error e => (.error e, fs)
    | .ok root =>
      if fs.stat (pjoin root nm) then
        (.error ("sim with name '" ++ nm ++ "' already exists"), fs)
      else
        let s : Sim := { Name := nm, Chips := b.banks.map initialChip,
                         configfsPath := pjoin root nm }
        match s.activateTree fs with
        | (fs2, some e) => (.error e, (s.Close fs2).2)
        | (fs2, none) =>
          match readAttr fs2 (pjoin root nm) "dev_name" with
          | .error e => (.error e, (s.Close fs2).2)
          | .ok devName =>
            match readBackChips fs2 devName (pjoin root nm) 0 s.Chips with
            | .error (.closeErr e) => (.error e, (s.Close fs2).2)
            | .error (.bareErr e) => (.error e, fs2)
            | .ok chips => (.ok { s with Chips := chips }, fs2)

/-- The `NewSimOption`s accepted by `NewSim`. -/
inductive NewSimOption where
  | withName (n : String)
  | withBank (k : Bank)
deriving DecidableEq, Repr

/-- `applySimOption` for each option kind. -/
def applySimOption (b : builder) : NewSimOption → builder
  | .withName n => { b with name := n }
  | .withBank k => { b with banks := b.banks ++ [k] }

/-- `NewSim`: apply the options to a zero builder, then take it live. -/
def NewSim (opts : List NewSimOption) (fs : FS) : Except String Sim × FS :=
  (opts.foldl applySimOption { name := "", banks := [] }).live fs

/-- The line's `hog` directory path, as composed by `setupConfigfs`. -/
def hogPath (cp : String) (i : Nat) (o : Int) : String :=
  pjoin (pjoin (pjoin cp ("bank" ++ toString i)) ("line" ++ toString o)) "hog"

/-! ## Concrete states used by the witnesses and counterexamples -/

/-- A chip handle addressing a live chip's sysfs line-control tree. -/
def chipW : Chip :=
  { initialChip (NewBank "left" 8) with
    sysfsPath := "/sys/devices/platform/gpio-sim.0/gpiochip0" }

/-- A sysfs world holding the line directory for offset 3 of `chipW`. -/
def fsPull : FS :=
  { emptyFS with dirs := ["/sys/devices/platform/gpio-sim.0/gpiochip0/sim_gpio3"] }

/-- `fsPull` after `SetPull(3, Active)`. -/
def fsPullUp : FS :=
  { fsPull with
    files := [("/sys/devices/platform/gpio-sim.0/gpiochip0/sim_gpio3/pull", "pull-up")],
    trace := [FsOp.write "/sys/devices/platform/gpio-sim.0/gpiochip0/sim_gpio3/pull"
      "pull-up"] }

/-- `fsPullUp` after a further `SetPull(3, Inactive)` (what `Toggle(3)` writes). -/
def fsPullDown : FS :=
  { fsPull with
    files := [("/sys/devices/platform/gpio-sim.0/gpiochip0/sim_gpio3/pull", "pull-down")],
    trace := [FsOp.write "/sys/devices/platform/gpio-sim.0/gpiochip0/sim_gpio3/pull"
        "pull-up",
      FsOp.write "/sys/devices/platform/gpio-sim.0/gpiochip0/sim_gpio3/pull"
        "pull-down"] }

/-- A sysfs world whose pull attribute for offset 3 holds unexpected text. -/
def fsPullBogus : FS :=
  { fsPull with
    files := [("/sys/devices/platform/gpio-sim.0/gpiochip0/sim_gpio3/pull", "bogus")] }

/-- A world holding a single attribute file with leading and trailing blanks. -/
def fsAttrPadded : FS :=
  { emptyFS with files := [("/p/a", " x \n")] }

/-- A bank with one hogged line, used by the teardown scenarios. -/
def bankHogged : Bank :=
  { (NewBank "left" 8) with Hogs := [(2, { Consumer := "piggy", Direction := HogDirectionOutputLow })] }

/-- A sim handle over `bankHogged`, as teardown would see it. -/
def simTear : Sim :=
  { Name := "s1", configfsPath := "/sys/kernel/config/gpio-sim/s1",
    Chips := [initialChip bankHogged] }

/-- A world where the configuration tree of `simTear` exists but the write of
the root `live` attribute fails (fault-injected, e.g. rejected by the
kernel). -/
def fsTearLiveFails : FS :=
  { emptyFS with
    dirs := ["/sys/kernel/config/gpio-sim/s1", "/sys/kernel/config/gpio-sim/s1/bank0"],
    failWrites := ["/sys/kernel/config/gpio-sim/s1/live"] }

/-- `fsTearLiveFails` without the fault injection: the `live` write succeeds. -/
def fsTearLiveOk : FS :=
  { fsTearLiveFails with failWrites := [] }

/-- `fsTearLiveOk` right after the successful `live = "0"` write. -/
def fsTearAfterLive : FS :=
  { fsTearLiveOk with
    files := [("/sys/kernel/config/gpio-sim/s1/live", "0")],
    trace := [FsOp.write "/sys/kernel/config/gpio-sim/s1/live" "0"] }

/-- A world in which the configuration root of `simTear` is already gone
(as after a prior `Close`). -/
def fsTearGone : FS := emptyFS

/-- A builder carrying one plain 8-line bank under the fixed name `s1`. -/
def bLive : builder := { name := "s1", banks := [NewBank "left" 8] }

/-- A world where activation of `bLive` proceeds to the device-path check and
then finds `/dev/gpiochip0` to be a symlink: the configfs root exists, the
kernel-assigned attributes read back fine, but the device path is masked. -/
def fsSymlinkMask : FS :=
  { emptyFS with
    dirs := ["/sys/kernel/config/gpio-sim"],
    files := [("/sys/kernel/config/gpio-sim/s1/dev_name", "gpio-sim.0\n"),
              ("/sys/kernel/config/gpio-sim/s1/bank0/chip_name", "gpiochip0\n")],
    symlinks := ["/dev/gpiochip0"] }

/-- A world where activation of `bLive` fails while building the tree: the
write of the bank `label` attribute is fault-injected. -/
def fsLabelFail : FS :=
  { emptyFS with
    dirs := ["/sys/kernel/config/gpio-sim"],
    failWrites := ["/sys/kernel/config/gpio-sim/s1/bank0/label"] }

/-- The `Sim` value `live` constructs for `bLive` before activation. -/
def simLive : Sim :=
  { Name := "s1", Chips := bLive.banks.map initialChip,
    configfsPath := "/sys/kernel/config/gpio-sim/s1" }

/-- A world where activation of `bLive` runs through to success: the configfs
root exists, the kernel-populated read-back attributes are in place, and the
device file exists and is not a symlink. -/
def fsRound : FS :=
  { emptyFS with
    dirs := ["/sys/kernel/config/gpio-sim"],
    files := [("/sys/kernel/config/gpio-sim/s1/dev_name", "gpio-sim.0\n"),
              ("/sys/kernel/config/gpio-sim/s1/bank0/chip_name", "gpiochip0\n"),
              ("/dev/gpiochip0", "")] }

/-- The `Sim` that `bLive.live fsRound` returns. -/
def simRound : Sim :=
  { Name := "s1",
    Chips := [{ configfsPath := "", devPath := "/dev/gpiochip0",
                chipName := "gpiochip0", devName := "gpio-sim.0",
                sysfsPath := "/sys/devices/platform/gpio-sim.0/gpiochip0",
                cfg := { NumLines := 8, Label := "left", Names := [], Hogs := [] } }],
    configfsPath := "/sys/kernel/config/gpio-sim/s1" }

/-- A world in which `simTear`'s configuration tree can be built: only the
configfs root exists. -/
def fsHog : FS := { emptyFS with dirs := ["/sys/kernel/config/gpio-sim"] }

/-- The world `bLive.live fsRound` returns alongside `simRound`. -/
def fsRoundOut : FS :=
  { fsRound with
    dirs := ["/sys/kernel/config/gpio-sim/s1/bank0", "/sys/kernel/config/gpio-sim/s1",
             "/sys/kernel/config", "/sys/kernel", "/sys", "/sys/kernel/config/gpio-sim"],
    files := fsRound.files ++
      [("/sys/kernel/config/gpio-sim/s1/bank0/label", "left"),
       ("/sys/kernel/config/gpio-sim/s1/bank0/num_lines", "8"),
       ("/sys/kernel/config/gpio-sim/s1/live", "1")],
    trace := [FsOp.mkdirAll "/sys/kernel/config/gpio-sim/s1/bank0",
              FsOp.write "/sys/kernel/config/gpio-sim/s1/bank0/label" "left",
              FsOp.write "/sys/kernel/config/gpio-sim/s1/bank0/num_lines" "8",
              FsOp.write "/sys/kernel/config/gpio-sim/s1/live" "1"] }

end Gpiosim

namespace Gpiosim

/-! ## Helper lemmas -/

theorem lookupFile_setFile (l : List (String × String)) (p v : String) :
    lookupFile (setFile l p v) p = some v := by
  induction l with
  | nil => simp [setFile, lookupFile]
  | cons kv rest ih =>
    by_cases h : kv.1 = p
    · simp [setFile, h, lookupFile]
    · simpa [setFile, h, lookupFile] using ih

/-! ## Claims about the line-control facade -/

/-- Claim C5: for a line whose pull attribute file behaves as plain storage
(the line directory exists and neither the write nor the read of the pull
attribute is fault-injected), `SetPull(o, Active)` followed by `Pull(o)`
returns Active, `SetPull(o, Inactive)` followed by `Pull(o)` returns
Inactive, and `Toggle(o)` after setting the pull Active leaves a subsequent
`Pull(o)` returning Inactive. -/
theorem setPull_pull_roundtrip (c : Chip) (fs : FS) (o : Int)
    (hdir : fs.dirs.contains (pjoin c.sysfsPath ("sim_gpio" ++ toString o)) = true)
    (hw : fs.failWrites.contains
      (pjoin (pjoin c.sysfsPath ("sim_gpio" ++ toString o)) "pull") = false)
    (hr : fs.failReads.contains
      (pjoin (pjoin c.sysfsPath ("sim_gpio" ++ toString o)) "pull") = false) :
    (∀ fs1, c.SetPull fs o LevelActive = .ok fs1 → c.Pull fs1 o = .ok LevelActive)
    ∧ (∀ fs1, c.SetPull fs o LevelInactive = .ok fs1 → c.Pull fs1 o = .ok LevelInactive)
    ∧ (∀ fs1 fs2, c.SetPull fs o LevelActive = .ok fs1 → c.Toggle fs1 o = .ok fs2 →
        c.Pull fs2 o = .ok LevelInactive) := by
  have hup : goTrimSpace "pull-up" = "pull-up" := by decide
  have hdn : goTrimSpace "pull-down" = "pull-down" := by decide
  have hset : ∀ lv s, c.SetPull fs o lv = .ok s →
      s = { fs with
        files := setFile fs.files
          (pjoin (pjoin c.sysfsPath ("sim_gpio" ++ toString o)) "pull")
          (if lv = LevelActive then "pull-up" else "pull-down"),
        trace := fs.trace ++ [FsOp.write
          (pjoin (pjoin c.sysfsPath ("sim_gpio" ++ toString o)) "pull")
          (if lv = LevelActive then "pull-up" else "pull-down")] } := by
    intro lv s h
    unfold Chip.SetPull Chip.setAttr writeAttr at h
    rw [hw, hdir] at h
    simpa using h.symm
  have hPullUp : ∀ fs1, c.SetPull fs o LevelActive = .ok fs1 →
      c.Pull fs1 o = .ok LevelActive := by
    intro fs1 h
    have h1 := hset LevelActive fs1 h
    subst h1
    unfold Chip.Pull Chip.attr readAttr
    simp only [hr]
    rw [lookupFile_setFile]
    simp [hup]
  refine ⟨hPullUp, ?_, ?_⟩
  · intro fs1 h
    have h1 := hset LevelInactive fs1 h
    subst h1
    unfold Chip.Pull Chip.attr readAttr
    simp only [hr]
    rw [lookupFile_setFile]
    simp [hdn, LevelInactive, LevelActive]
  · intro fs1 fs2 h ht
    have h1 := hset LevelActive fs1 h
    have hp := hPullUp fs1 h
    unfold Chip.Toggle at ht
    rw [hp] at ht
    have hset1 : ∀ lv s, c.SetPull fs1 o lv = .ok s →
        s = { fs1 with
          files := setFile fs1.files
            (pjoin (pjoin c.sysfsPath ("sim_gpio" ++ toString o)) "pull")
            (if lv = LevelActive then "pull-up" else "pull-down"),
          trace := fs1.trace ++ [FsOp.write
            (pjoin (pjoin c.sysfsPath ("sim_gpio" ++ toString o)) "pull")
            (if lv = LevelActive then "pull-up" else "pull-down")] } := by
      intro lv s hh
      unfold Chip.SetPull Chip.setAttr writeAttr at hh
      have hw1 : fs1.failWrites.contains
          (pjoin (pjoin c.sysfsPath ("sim_gpio" ++ toString o)) "pull") = false := by
        rw [h1]; exact hw
      have hdir1 : fs1.dirs.contains
          (pjoin c.sysfsPath ("sim_gpio" ++ toString o)) = true := by
        rw [h1]; exact hdir
      rw [hw1, hdir1] at hh
      simpa using hh.symm
    have hr1 : fs1.failReads.contains
        (pjoin (pjoin c.sysfsPath ("sim_gpio" ++ toString o)) "pull") = false := by
      rw [h1]; exact hr
    simp only [LevelActive] at ht
    norm_num at ht
    have h2 := hset1 0 fs2 ht
    subst h2
    unfold Chip.Pull Chip.attr readAttr
    simp only [hr1]
    rw [lookupFile_setFile]
    simp [hdn, LevelInactive, LevelActive]

/-- Witness for C5: a concrete line directory where the round trips evaluate. -/
theorem setPull_pull_roundtrip_witness :
    Chip.Pull chipW fsPullUp 3 = .ok LevelActive
    ∧ Chip.Pull chipW fsPullDown 3 = .ok LevelInactive := by
  have h := setPull_pull_roundtrip chipW fsPull 3 (by decide) (by decide) (by decide)
  exact ⟨h.1 fsPullUp (by decide), h.2.2 fsPullUp fsPullDown (by decide) (by decide)⟩

/-- Claim C6: `Pull` maps attribute text `"pull-down"` to `LevelInactive` and
`"pull-up"` to `LevelActive`; any other text read back from the pull
attribute yields the error `"unexpected pull value: ..."`. -/
theorem pull_parses_attr (c : Chip) (fs : FS) (o : Int) (v : String)
    (h : c.attr fs o "pull" = .ok v) :
    c.Pull fs o = (if v = "pull-down" then .ok LevelInactive
      else if v = "pull-up" then .ok LevelActive
      else .error ("unexpected pull value: " ++ v)) := by
  unfold Chip.Pull
  rw [h]

/-- Witness for C6: the three text cases evaluated on concrete worlds. -/
theorem pull_parses_attr_witness :
    Chip.Pull chipW fsPullBogus 3 = .error "unexpected pull value: bogus"
    ∧ Chip.Pull chipW fsPullUp 3 = .ok LevelActive
    ∧ Chip.Pull chipW fsPullDown 3 = .ok LevelInactive := by
  refine ⟨?_, ?_, ?_⟩
  · rw [pull_parses_attr chipW fsPullBogus 3 "bogus" (by decide)]; decide
  · rw [pull_parses_attr chipW fsPullUp 3 "pull-up" (by decide)]; decide
  · rw [pull_parses_attr chipW fsPullDown 3 "pull-down" (by decide)]; decide

/-- Counterexample to claim C8 as stated: `readAttr` uses Go
`strings.TrimSpace`, which removes leading white space too — a file whose
content is `" x \n"` reads back as `"x"`, not `" x"`. -/
theorem readAttr_strips_leading_cex :
    readAttr fsAttrPadded "/p" "a" = .ok "x"
    ∧ readAttr fsAttrPadded "/p" "a" ≠ .ok " x" := by decide

/-- Claim C8 (amended): `readAttr` returns the file's text with leading and
trailing white space removed (Go `strings.TrimSpace`) and the interior
characters unchanged. -/
theorem readAttr_trims (fs : FS) (p a d : String)
    (hr : fs.failReads.contains (pjoin p a) = false)
    (hf : lookupFile fs.files (pjoin p a) = some d) :
    readAttr fs p a =
      .ok (String.mk (((d.data.dropWhile goIsSpace).reverse.dropWhile
        goIsSpace).reverse)) := by
  unfold readAttr
  rw [hr, hf]
  rfl

/-- Witness for C8 (amended): concrete padded content evaluates to its
trimmed interior. -/
theorem readAttr_trims_witness :
    readAttr fsAttrPadded "/p" "a" = .ok "x" := by
  rw [readAttr_trims fsAttrPadded "/p" "a" " x \n" (by decide) (by decide)]
  decide

/-- Claim C10: `SetPull(o, level)` writes `"pull-up"` exactly when
`level = LevelActive = 1` and `"pull-down"` for every other integer level
(including out-of-range values), and `SetPull` produces no invalid-level
error of its own — given a writable attribute it succeeds for every level. -/
theorem setPull_level_vocabulary (c : Chip) (fs : FS) (o level : Int)
    (hdir : fs.dirs.contains (pjoin c.sysfsPath ("sim_gpio" ++ toString o)) = true)
    (hw : fs.failWrites.contains
      (pjoin (pjoin c.sysfsPath ("sim_gpio" ++ toString o)) "pull") = false) :
    ∃ fs1, c.SetPull fs o level = .ok fs1
      ∧ lookupFile fs1.files
          (pjoin (pjoin c.sysfsPath ("sim_gpio" ++ toString o)) "pull")
        = some (if level = LevelActive then "pull-up" else "pull-down") := by
  refine ⟨{ fs with
    files := setFile fs.files
      (pjoin (pjoin c.sysfsPath ("sim_gpio" ++ toString o)) "pull")
      (if level = LevelActive then "pull-up" else "pull-down"),
    trace := fs.trace ++ [FsOp.write
      (pjoin (pjoin c.sysfsPath ("sim_gpio" ++ toString o)) "pull")
      (if level = LevelActive then "pull-up" else "pull-down")] }, ?_, ?_⟩
  · unfold Chip.SetPull Chip.setAttr writeAttr
    rw [hw, hdir]
    simp
  · rw [lookupFile_setFile]

/-- Claim C3: a builder with no banks is rejected by `live` with the
`"no banks defined"` error, before any path is resolved, created or
written — the filesystem state is returned unchanged. -/
theorem live_empty_banks (b : builder) (fs : FS) (h : b.banks = []) :
    b.live fs = (.error "no banks defined", fs) := by
  unfold builder.live
  rw [h]
  simp

/-- Witness for C3: `NewSim` with no `WithBank` option. -/
theorem live_empty_banks_witness :
    ({ name := "", banks := [] } : builder).live emptyFS
      = (.error "no banks defined", emptyFS) :=
  live_empty_banks { name := "", banks := [] } emptyFS rfl

/-- Claim C4: when the composed configuration path `root/name` already
exists, `live` fails with the name-conflict error naming the sim, and the
filesystem state is returned unchanged — nothing is created or written, so
the pre-existing simulation under that path is untouched. -/
theorem live_name_conflict (b : builder) (fs : FS) (root : String)
    (hb : ¬b.banks.length = 0)
    (hroot : findConfigfsPath fs = .ok root)
    (hconf : fs.stat
      (pjoin root (if b.name.length = 0 then uniqueName fs else b.name)) = true) :
    b.live fs = (.error ("sim with name '"
      ++ (if b.name.length = 0 then uniqueName fs else b.name)
      ++ "' already exists"), fs) := by
  unfold builder.live
  rw [if_neg hb, hroot]
  simp only [hconf]
  simp

/-- Witness for C4: a concrete world where `root/s1` already exists. -/
theorem live_name_conflict_witness :
    ({ name := "s1", banks := [NewBank "left" 8] } : builder).live
      { emptyFS with
        dirs := ["/sys/kernel/config/gpio-sim", "/sys/kernel/config/gpio-sim/s1"] }
      = (.error "sim with name 's1' already exists",
        { emptyFS with
          dirs := ["/sys/kernel/config/gpio-sim", "/sys/kernel/config/gpio-sim/s1"] }) := by
  rw [live_name_conflict { name := "s1", banks := [NewBank "left" 8] }
    { emptyFS with
      dirs := ["/sys/kernel/config/gpio-sim", "/sys/kernel/config/gpio-sim/s1"] }
    "/sys/kernel/config/gpio-sim" (by decide) (by decide) (by decide)]
  decide

/-- Counterexample to claim C1 as stated: on the device-path symlink safety
check, `live` returns the masking error WITHOUT invoking teardown — the
caller receives an error while the configuration tree is still fully built
and live (`live` file still `"1"`, root still present), and running `Close`
on the returned state would still change it. -/
theorem live_symlink_no_rollback_cex :
    (bLive.live fsSymlinkMask).1
      = .error "A symlink (/dev/gpiochip0) is masking GPIO device gpiochip0"
    ∧ lookupFile (bLive.live fsSymlinkMask).2.files
        "/sys/kernel/config/gpio-sim/s1/live" = some "1"
    ∧ (bLive.live fsSymlinkMask).2.stat "/sys/kernel/config/gpio-sim/s1" = true
    ∧ (bLive.live fsSymlinkMask).2
      ≠ (Sim.Close simLive (bLive.live fsSymlinkMask).2).2 := by decide

/-- Claim C1 (amended): when activation fails after the name-conflict check
while building the configfs tree, writing `live = "1"`, or reading back
`dev_name` or a bank's `chip_name`, teardown (`Sim.Close`) is invoked on
whatever was built and the original error is surfaced (never a teardown
error, since `Close` returns none); but when the failure is at the
device-path symlink safety check (`Lstat` failure or symlink detected), the
error is returned WITHOUT invoking teardown, leaving the built tree in
place. -/
theorem live_rollback_paths (b : builder) (fs : FS) (root nm : String) (s : Sim)
    (hb : ¬b.banks.length = 0)
    (hroot : findConfigfsPath fs = .ok root)
    (hnm : nm = (if b.name.length = 0 then uniqueName fs else b.name))
    (hconf : fs.stat (pjoin root nm) = false)
    (hs : s = { Name := nm, Chips := b.banks.map initialChip,
                configfsPath := pjoin root nm }) :
    (∀ e, (s.activateTree fs).2 = some e →
      b.live fs = (.error e, (s.Close (s.activateTree fs).1).2))
    ∧ (∀ e, (s.activateTree fs).2 = none →
      readAttr (s.activateTree fs).1 (pjoin root nm) "dev_name" = .error e →
      b.live fs = (.error e, (s.Close (s.activateTree fs).1).2))
    ∧ (∀ dn e, (s.activateTree fs).2 = none →
      readAttr (s.activateTree fs).1 (pjoin root nm) "dev_name" = .ok dn →
      readBackChips (s.activateTree fs).1 dn (pjoin root nm) 0 s.Chips
        = .error (.closeErr e) →
      b.live fs = (.error e, (s.Close (s.activateTree fs).1).2))
    ∧ (∀ dn e, (s.activateTree fs).2 = none →
      readAttr (s.activateTree fs).1 (pjoin root nm) "dev_name" = .ok dn →
      readBackChips (s.activateTree fs).1 dn (pjoin root nm) 0 s.Chips
        = .error (.bareErr e) →
      b.live fs = (.error e, (s.activateTree fs).1)) := by
  subst hnm
  have hlive : b.live fs
      = (match s.activateTree fs with
        | (fs2, some e) => (.error e, (s.Close fs2).2)
        | (fs2, none) =>
          match readAttr fs2 s.configfsPath "dev_name" with
          | .error e => (.error e, (s.Close fs2).2)
          | .ok devName =>
            match readBackChips fs2 devName s.configfsPath 0 s.Chips with
            | .error (.closeErr e) => (.error e, (s.Close fs2).2)
            | .error (.bareErr e) => (.error e, fs2)
            | .ok chips => (.ok { s with Chips := chips }, fs2)) := by
    unfold builder.live
    rw [if_neg hb, hroot]
    simp only [hconf, Bool.false_eq_true, if_false]
    rw [← hs]
    rw [hs]
  rcases hA : s.activateTree fs with ⟨fs2, eo⟩
  rw [hA] at hlive
  have hcp : s.configfsPath = pjoin root
      (if b.name.length = 0 then uniqueName fs else b.name) := by rw [hs]
  rw [← hcp]
  cases eo with
  | some e0 =>
    simp only at hlive
    refine ⟨?_, ?_, ?_, ?_⟩
    · intro e he
      simp only [Option.some.injEq] at he
      subst he
      simpa using hlive
    · intro e he
      simp at he
    · intro dn e he
      simp at he
    · intro dn e he
      simp at he
  | none =>
    simp only at hlive
    refine ⟨?_, ?_, ?_, ?_⟩
    · intro e he
      simp at he
    · intro e _ hr
      simp only at hr ⊢
      rw [hr] at hlive
      simpa using hlive
    · intro dn e _ hr hrb
      simp only at hr hrb ⊢
      rw [hr] at hlive
      simp only at hlive
      rw [hrb] at hlive
      simpa using hlive
    · intro dn e _ hr hrb
      simp only at hr hrb ⊢
      rw [hr] at hlive
      simp only at hlive
      rw [hrb] at hlive
      simpa using hlive

/-- Witness for C1 (amended): a tree-build failure rolls back via `Close`
and surfaces the original error; the symlink-check failure surfaces its
error with the activated state untouched. -/
theorem live_rollback_paths_witness :
    bLive.live fsLabelFail
      = (.error "open /sys/kernel/config/gpio-sim/s1/bank0/label: no such file or directory",
        (Sim.Close simLive (Sim.activateTree simLive fsLabelFail).1).2)
    ∧ bLive.live fsSymlinkMask
      = (.error "A symlink (/dev/gpiochip0) is masking GPIO device gpiochip0",
        (Sim.activateTree simLive fsSymlinkMask).1) := by
  have h1 := live_rollback_paths bLive fsLabelFail "/sys/kernel/config/gpio-sim" "s1"
    simLive (by decide) (by decide) (by decide) (by decide) (by decide)
  have h2 := live_rollback_paths bLive fsSymlinkMask "/sys/kernel/config/gpio-sim" "s1"
    simLive (by decide) (by decide) (by decide) (by decide) (by decide)
  exact ⟨h1.1 "open /sys/kernel/config/gpio-sim/s1/bank0/label: no such file or directory"
      (by decide),
    h2.2.2.2 "gpio-sim.0"
      "A symlink (/dev/gpiochip0) is masking GPIO device gpiochip0"
      (by decide) (by decide) (by decide)⟩

theorem mkdir_trace {fs fs1 : FS} {p : String} (h : FS.mkdir fs p = .ok fs1) :
    fs1.trace = fs.trace ++ [FsOp.mkdir p] := by
  unfold FS.mkdir at h
  split at h
  · simp at h
  · simp only [Except.ok.injEq] at h
    subst h
    rfl

theorem mkdirAll_trace {fs fs1 : FS} {p : String} (h : FS.mkdirAll fs p = .ok fs1) :
    fs1.trace = fs.trace ++ [FsOp.mkdirAll p] := by
  unfold FS.mkdirAll at h
  split at h
  · simp at h
  · simp only [Except.ok.injEq] at h
    subst h
    rfl

theorem writeAttr_trace {fs fs1 : FS} {p a v : String} (h : writeAttr fs p a v = .ok fs1) :
    fs1.trace = fs.trace ++ [FsOp.write (pjoin p a) v] := by
  unfold writeAttr at h
  split at h
  · simp at h
  · simp only [Except.ok.injEq] at h
    subst h
    rfl

theorem sublist_append_of_left {α : Type} {l t : List α} (t2 : List α)
    (h : List.Sublist l t) : List.Sublist l (t ++ t2) :=
  h.trans (List.sublist_append_left t t2)

theorem sublist_append_of_right {α : Type} {l t : List α} (t1 : List α)
    (h : List.Sublist l t) : List.Sublist l (t1 ++ t) :=
  h.trans (List.sublist_append_right t1 t)

theorem setupLines_trace (bp : String) :
    ∀ (l : List (Int × String)) (fs : FS),
      ∃ t, (setupLines bp fs l).1.trace = fs.trace ++ t := by
  intro l
  induction l with
  | nil => intro fs; exact ⟨[], by simp [setupLines]⟩
  | cons x rest ih =>
    intro fs
    obtain ⟨o, n⟩ := x
    cases hm : fs.mkdir (pjoin bp ("line" ++ toString o)) with
    | error e => exact ⟨[], by simp [setupLines, hm]⟩
    | ok fs1 =>
      cases hw : writeAttr fs1 (pjoin bp ("line" ++ toString o)) "name" n with
      | error e =>
        refine ⟨[FsOp.mkdir (pjoin bp ("line" ++ toString o))], ?_⟩
        simp only [setupLines, hm, hw]
        exact mkdir_trace hm
      | ok fs2 =>
        obtain ⟨t, ht⟩ := ih fs2
        refine ⟨[FsOp.mkdir (pjoin bp ("line" ++ toString o)),
          FsOp.write (pjoin (pjoin bp ("line" ++ toString o)) "name") n] ++ t, ?_⟩
        simp only [setupLines, hm, hw]
        rw [ht, writeAttr_trace hw, mkdir_trace hm]
        simp

theorem setupHogs_trace (bp : String) :
    ∀ (l : List (Int × Hog)) (fs : FS),
      ∃ t, (setupHogs bp fs l).1.trace = fs.trace ++ t := by
  intro l
  induction l with
  | nil => intro fs; exact ⟨[], by simp [setupHogs]⟩
  | cons x rest ih =>
    intro fs
    obtain ⟨o, h⟩ := x
    cases hm : fs.mkdirAll (pjoin (pjoin bp ("line" ++ toString o)) "hog") with
    | error e => exact ⟨[], by simp [setupHogs, hm]⟩
    | ok fs1 =>
      cases hw : writeAttr fs1 (pjoin (pjoin bp ("line" ++ toString o)) "hog")
          "name" h.Consumer with
      | error e =>
        refine ⟨[FsOp.mkdirAll (pjoin (pjoin bp ("line" ++ toString o)) "hog")], ?_⟩
        simp only [setupHogs, hm, hw]
        exact mkdirAll_trace hm
      | ok fs2 =>
        cases hd : writeAttr fs2 (pjoin (pjoin bp ("line" ++ toString o)) "hog")
            "direction" (hogDirectionToString h.Direction) with
        | error e =>
          refine ⟨[FsOp.mkdirAll (pjoin (pjoin bp ("line" ++ toString o)) "hog"),
            FsOp.write (pjoin (pjoin (pjoin bp ("line" ++ toString o)) "hog") "name")
              h.Consumer], ?_⟩
          simp only [setupHogs, hm, hw, hd]
          rw [writeAttr_trace hw, mkdirAll_trace hm]
          simp
        | ok fs3 =>
          obtain ⟨t, ht⟩ := ih fs3
          refine ⟨[FsOp.mkdirAll (pjoin (pjoin bp ("line" ++ toString o)) "hog"),
            FsOp.write (pjoin (pjoin (pjoin bp ("line" ++ toString o)) "hog") "name")
              h.Consumer,
            FsOp.write (pjoin (pjoin (pjoin bp ("line" ++ toString o)) "hog") "direction")
              (hogDirectionToString h.Direction)] ++ t, ?_⟩
          simp only [setupHogs, hm, hw, hd]
          rw [ht, writeAttr_trace hd, writeAttr_trace hw, mkdirAll_trace hm]
          simp

theorem setupHogs_mem (bp : String) :
    ∀ (l : List (Int × Hog)) (fs fsOut : FS),
      setupHogs bp fs l = (fsOut, none) →
      ∀ (o : Int) (h : Hog), (o, h) ∈ l →
        ∃ t, fsOut.trace = fs.trace ++ t
          ∧ List.Sublist
              [FsOp.mkdirAll (pjoin (pjoin bp ("line" ++ toString o)) "hog"),
               FsOp.write (pjoin (pjoin (pjoin bp ("line" ++ toString o)) "hog") "name")
                 h.Consumer,
               FsOp.write (pjoin (pjoin (pjoin bp ("line" ++ toString o)) "hog")
                 "direction") (hogDirectionToString h.Direction)] t := by
  intro l
  induction l with
  | nil => intro fs fsOut hrun o h hm; simp at hm
  | cons x rest ih =>
    intro fs fsOut hrun o h hmem
    obtain ⟨o', h'⟩ := x
    unfold setupHogs at hrun
    split at hrun
    · simp at hrun
    · rename_i fs1 hm
      split at hrun
      · simp at hrun
      · rename_i fs2 hw
        split at hrun
        · simp at hrun
        · rename_i fs3 hd
          rcases List.mem_cons.mp hmem with heq | htail
          · have ho : o = o' := congrArg Prod.fst heq
            have hh : h = h' := congrArg Prod.snd heq
            subst ho
            subst hh
            obtain ⟨t2, ht2⟩ := setupHogs_trace bp rest fs3
            rw [hrun] at ht2
            simp only at ht2
            refine ⟨[FsOp.mkdirAll (pjoin (pjoin bp ("line" ++ toString o)) "hog"),
              FsOp.write (pjoin (pjoin (pjoin bp ("line" ++ toString o)) "hog") "name")
                h.Consumer,
              FsOp.write (pjoin (pjoin (pjoin bp ("line" ++ toString o)) "hog")
                "direction") (hogDirectionToString h.Direction)] ++ t2, ?_, ?_⟩
            · rw [ht2, writeAttr_trace hd, writeAttr_trace hw, mkdirAll_trace hm]
              simp
            · exact List.sublist_append_left _ _
          · obtain ⟨t, ht, hsub⟩ := ih fs3 fsOut hrun o h htail
            refine ⟨[FsOp.mkdirAll (pjoin (pjoin bp ("line" ++ toString o')) "hog"),
              FsOp.write (pjoin (pjoin (pjoin bp ("line" ++ toString o')) "hog") "name")
                h'.Consumer,
              FsOp.write (pjoin (pjoin (pjoin bp ("line" ++ toString o')) "hog")
                "direction") (hogDirectionToString h'.Direction)] ++ t, ?_, ?_⟩
            · rw [ht, writeAttr_trace hd, writeAttr_trace hw, mkdirAll_trace hm]
              simp
            · exact sublist_append_of_right _ hsub

theorem setupBank_trace (cp : String) (fs : FS) (i : Nat) (c : Chip) :
    ∃ t, (setupBank cp fs i c).1.trace = fs.trace ++ t := by
  cases hm : fs.mkdirAll (pjoin cp ("bank" ++ toString i)) with
  | error e => exact ⟨[], by simp [setupBank, hm]⟩
  | ok fs1 =>
    cases hl : writeAttr fs1 (pjoin cp ("bank" ++ toString i)) "label" c.cfg.Label with
    | error e =>
      refine ⟨[FsOp.mkdirAll (pjoin cp ("bank" ++ toString i))], ?_⟩
      simp only [setupBank, hm, hl]
      exact mkdirAll_trace hm
    | ok fs2 =>
      cases hn : writeAttr fs2 (pjoin cp ("bank" ++ toString i)) "num_lines"
          (toString c.cfg.NumLines) with
      | error e =>
        refine ⟨[FsOp.mkdirAll (pjoin cp ("bank" ++ toString i)),
          FsOp.write (pjoin (pjoin cp ("bank" ++ toString i)) "label") c.cfg.Label], ?_⟩
        simp only [setupBank, hm, hl, hn]
        rw [writeAttr_trace hl, mkdirAll_trace hm]
        simp
      | ok fs3 =>
        rcases hL : setupLines (pjoin cp ("bank" ++ toString i)) fs3 c.cfg.Names
          with ⟨fs4, e4⟩
        obtain ⟨tL, htL⟩ := setupLines_trace (pjoin cp ("bank" ++ toString i))
          c.cfg.Names fs3
        rw [hL] at htL
        simp only at htL
        cases e4 with
        | some e =>
          refine ⟨[FsOp.mkdirAll (pjoin cp ("bank" ++ toString i)),
            FsOp.write (pjoin (pjoin cp ("bank" ++ toString i)) "label") c.cfg.Label,
            FsOp.write (pjoin (pjoin cp ("bank" ++ toString i)) "num_lines")
              (toString c.cfg.NumLines)] ++ tL, ?_⟩
          simp only [setupBank, hm, hl, hn, hL]
          rw [htL, writeAttr_trace hn, writeAttr_trace hl, mkdirAll_trace hm]
          simp
        | none =>
          obtain ⟨tH, htH⟩ := setupHogs_trace (pjoin cp ("bank" ++ toString i))
            c.cfg.Hogs fs4
          refine ⟨[FsOp.mkdirAll (pjoin cp ("bank" ++ toString i)),
            FsOp.write (pjoin (pjoin cp ("bank" ++ toString i)) "label") c.cfg.Label,
            FsOp.write (pjoin (pjoin cp ("bank" ++ toString i)) "num_lines")
              (toString c.cfg.NumLines)] ++ tL ++ tH, ?_⟩
          simp only [setupBank, hm, hl, hn, hL]
          rw [htH, htL, writeAttr_trace hn, writeAttr_trace hl, mkdirAll_trace hm]
          simp

theorem setupBank_mem (cp : String) (fs fsOut : FS) (i : Nat) (c : Chip)
    (hrun : setupBank cp fs i c = (fsOut, none))
    (o : Int) (h : Hog) (hmem : (o, h) ∈ c.cfg.Hogs) :
    ∃ t, fsOut.trace = fs.trace ++ t
      ∧ List.Sublist
          [FsOp.mkdirAll (hogPath cp i o),
           FsOp.write (pjoin (hogPath cp i o) "name") h.Consumer,
           FsOp.write (pjoin (hogPath cp i o) "direction")
             (hogDirectionToString h.Direction)] t := by
  unfold setupBank at hrun
  split at hrun
  · simp at hrun
  · rename_i fs1 hm
    split at hrun
    · simp at hrun
    · rename_i fs2 hl
      split at hrun
      · simp at hrun
      · rename_i fs3 hn
        split at hrun
        · simp at hrun
        · rename_i fs4 hL
          obtain ⟨tL, htL⟩ := setupLines_trace (pjoin cp ("bank" ++ toString i))
            c.cfg.Names fs3
          rw [hL] at htL
          simp only at htL
          obtain ⟨tH, htH, hsub⟩ := setupHogs_mem (pjoin cp ("bank" ++ toString i))
            c.cfg.Hogs fs4 fsOut hrun o h hmem
          refine ⟨[FsOp.mkdirAll (pjoin cp ("bank" ++ toString i)),
            FsOp.write (pjoin (pjoin cp ("bank" ++ toString i)) "label") c.cfg.Label,
            FsOp.write (pjoin (pjoin cp ("bank" ++ toString i)) "num_lines")
              (toString c.cfg.NumLines)] ++ tL ++ tH, ?_, ?_⟩
          · rw [htH, htL, writeAttr_trace hn, writeAttr_trace hl, mkdirAll_trace hm]
            simp
          · exact sublist_append_of_right _ hsub

theorem setupBanks_trace (cp : String) :
    ∀ (chips : List Chip) (fs : FS) (i : Nat),
      ∃ t, (setupBanks cp fs i chips).1.trace = fs.trace ++ t := by
  intro chips
  induction chips with
  | nil => intro fs i; exact ⟨[], by simp [setupBanks]⟩
  | cons c rest ih =>
    intro fs i
    rcases hB : setupBank cp fs i c with ⟨fs1, e1⟩
    obtain ⟨t1, ht1⟩ := setupBank_trace cp fs i c
    rw [hB] at ht1
    simp only at ht1
    cases e1 with
    | some e => exact ⟨t1, by simp only [setupBanks, hB]; exact ht1⟩
    | none =>
      obtain ⟨t2, ht2⟩ := ih fs1 (i + 1)
      refine ⟨t1 ++ t2, ?_⟩
      simp only [setupBanks, hB]
      rw [ht2, ht1]
      simp

theorem setupBanks_mem (cp : String) :
    ∀ (chips : List Chip) (fs fsOut : FS) (i0 : Nat),
      setupBanks cp fs i0 chips = (fsOut, none) →
      ∀ (j : Nat) (c : Chip), chips.get? j = some c →
      ∀ (o : Int) (h : Hog), (o, h) ∈ c.cfg.Hogs →
        ∃ t, fsOut.trace = fs.trace ++ t
          ∧ List.Sublist
              [FsOp.mkdirAll (hogPath cp (i0 + j) o),
               FsOp.write (pjoin (hogPath cp (i0 + j) o) "name") h.Consumer,
               FsOp.write (pjoin (hogPath cp (i0 + j) o) "direction")
                 (hogDirectionToString h.Direction)] t := by
  intro chips
  induction chips with
  | nil => intro fs fsOut i0 hrun j c hget; simp at hget
  | cons c' rest ih =>
    intro fs fsOut i0 hrun j c hget o h hmem
    unfold setupBanks at hrun
    split at hrun
    · simp at hrun
    · rename_i fs1 hB
      cases j with
      | zero =>
        simp only [List.get?_cons_zero, Option.some.injEq] at hget
        subst hget
        obtain ⟨t1, ht1, hsub⟩ := setupBank_mem cp fs fs1 i0 c' hB o h hmem
        obtain ⟨t2, ht2⟩ := setupBanks_trace cp rest fs1 (i0 + 1)
        rw [hrun] at ht2
        simp only at ht2
        refine ⟨t1 ++ t2, ?_, ?_⟩
        · rw [ht2, ht1]
          simp
        · simpa using sublist_append_of_left _ hsub
      | succ j =>
        simp only [List.get?_cons_succ] at hget
        obtain ⟨t', ht', hsub⟩ := ih fs1 fsOut (i0 + 1) hrun j c hget o h hmem
        obtain ⟨t1, ht1⟩ := setupBank_trace cp fs i0 c'
        rw [hB] at ht1
        simp only at ht1
        refine ⟨t1 ++ t', ?_, ?_⟩
        · rw [ht', ht1]
          simp
        · have harith : i0 + 1 + j = i0 + (j + 1) := by omega
          rw [harith] at hsub
          exact sublist_append_of_right _ hsub

theorem readBackChips_cfg (fs : FS) (dn cp : String) :
    ∀ (chips : List Chip) (i : Nat) (cs : List Chip),
      readBackChips fs dn cp i chips = .ok cs →
      cs.length = chips.length ∧
        ∀ j, (cs.get? j).map Chip.cfg = (chips.get? j).map Chip.cfg := by
  intro chips
  induction chips with
  | nil =>
    intro i cs h
    unfold readBackChips at h
    simp only [Except.ok.injEq] at h
    subst h
    exact ⟨rfl, fun j => rfl⟩
  | cons c rest ih =>
    intro i cs h
    unfold readBackChips at h
    split at h
    · simp at h
    · split at h
      · simp at h
      · split at h
        · simp at h
        · split at h
          · simp at h
          · rename_i cs' hrec
            simp only [Except.ok.injEq] at h
            subst h
            obtain ⟨hlen, hcfg⟩ := ih (i + 1) cs' hrec
            refine ⟨by simpa using hlen, fun j => ?_⟩
            cases j with
            | zero => rfl
            | succ j => simpa using hcfg j

/-- Claim C7: for each hogged line of each bank, a successful tree
construction (`setupConfigfs`, the build step of activation) creates the
line's `hog` subdirectory, then writes the `name` attribute (the consumer
string), then writes the `direction` attribute — in that order — and the
direction text is `"output-low"` for `HogDirectionOutputLow`,
`"output-high"` for `HogDirectionOutputHigh`, and `"input"` for every other
`HogDirection` value, including out-of-vocabulary integers. -/
theorem setup_hog_protocol :
    (hogDirectionToString HogDirectionOutputLow = "output-low"
     ∧ hogDirectionToString HogDirectionOutputHigh = "output-high"
     ∧ ∀ d : HogDirection, d ≠ HogDirectionOutputLow → d ≠ HogDirectionOutputHigh →
        hogDirectionToString d = "input")
    ∧ ∀ (s : Sim) (fs : FS), (s.setupConfigfs fs).2 = none →
      ∀ (i : Nat) (c : Chip), s.Chips.get? i = some c →
      ∀ (o : Int) (h : Hog), (o, h) ∈ c.cfg.Hogs →
        ∃ t, (s.setupConfigfs fs).1.trace = fs.trace ++ t
          ∧ List.Sublist
              [FsOp.mkdirAll (hogPath s.configfsPath i o),
               FsOp.write (pjoin (hogPath s.configfsPath i o) "name") h.Consumer,
               FsOp.write (pjoin (hogPath s.configfsPath i o) "direction")
                 (hogDirectionToString h.Direction)] t := by
  constructor
  · refine ⟨by decide, by decide, ?_⟩
    intro d h1 h2
    unfold hogDirectionToString
    rw [if_neg h1, if_neg h2]
  · intro s fs hnone i c hget o h hmem
    rcases hrun : s.setupConfigfs fs with ⟨fsOut, e⟩
    rw [hrun] at hnone
    simp only at hnone
    subst hnone
    have hpair : setupBanks s.configfsPath fs 0 s.Chips = (fsOut, none) := by
      rw [← hrun]
      rfl
    have hres := setupBanks_mem s.configfsPath s.Chips fs fsOut 0 hpair i c hget o h hmem
    simpa using hres

/-- Witness for C7: the hog of `bankHogged` (offset 2, consumer `"piggy"`,
direction OutputLow) leaves the create-name-direction event sequence, with
direction text `"output-low"`, in the trace of a successful setup; an
out-of-vocabulary direction maps to `"input"`. -/
theorem setup_hog_protocol_witness :
    List.Sublist
      [FsOp.mkdirAll (hogPath "/sys/kernel/config/gpio-sim/s1" 0 2),
       FsOp.write (pjoin (hogPath "/sys/kernel/config/gpio-sim/s1" 0 2) "name") "piggy",
       FsOp.write (pjoin (hogPath "/sys/kernel/config/gpio-sim/s1" 0 2) "direction")
         "output-low"]
      ((simTear.setupConfigfs fsHog).1.trace)
    ∧ hogDirectionToString 5 = "input" := by
  obtain ⟨t, ht, hsub⟩ := setup_hog_protocol.2 simTear fsHog (by decide) 0
    (initialChip bankHogged) (by decide) 2
    { Consumer := "piggy", Direction := HogDirectionOutputLow } (by decide)
  constructor
  · rw [ht]
    have hfs : fsHog.trace = [] := rfl
    rw [hfs, List.nil_append]
    simpa [hogDirectionToString, HogDirectionOutputLow] using hsub
  · exact (setup_hog_protocol.1.2.2 5 (by decide) (by decide))

/-- Claim C9: a successful activation returns the chips in the order the
banks were added, and reading back each chip's configuration yields the
original values — `Chips[i].Config().NumLines` and `.Label` equal the
`NumLines` and `Label` of the i-th bank supplied. -/
theorem live_config_roundtrip (b : builder) (fs : FS) (sim : Sim) (fsOut : FS)
    (h : b.live fs = (.ok sim, fsOut)) :
    sim.Chips.length = b.banks.length ∧
      ∀ i k, b.banks.get? i = some k →
        (sim.Chips.get? i).map (fun c => (c.Config.NumLines, c.Config.Label))
          = some (k.NumLines, k.Label) := by
  unfold builder.live at h
  split at h
  · simp at h
  · split at h
    all_goals
      split at h
      · simp at h
      · simp only [] at h
        split at h
        · simp at h
        · split at h
          · simp at h
          · split at h
            · simp at h
            · split at h
              · simp at h
              · simp at h
              · rename_i chips hrb
                simp only [Prod.mk.injEq, Except.ok.injEq] at h
                obtain ⟨hsim, _⟩ := h
                subst hsim
                obtain ⟨hlen, hcfg⟩ := readBackChips_cfg _ _ _ _ _ _ hrb
                constructor
                · simpa using hlen
                · intro i k hk
                  have hj := hcfg i
                  rw [List.get?_map, hk] at hj
                  simp only [Option.map_some'] at hj
                  have hik : (initialChip k).cfg = k := rfl
                  rw [hik] at hj
                  obtain ⟨c, hc, hck⟩ := Option.map_eq_some'.mp hj
                  simp only [hc, Option.map_some', Chip.Config, hck]

/-- Witness for C9: the concrete successful activation of one 8-line bank
labelled `"left"`. -/
theorem live_config_roundtrip_witness :
    simRound.Chips.length = bLive.banks.length
    ∧ (simRound.Chips.get? 0).map (fun c => (c.Config.NumLines, c.Config.Label))
      = some (8, "left") := by
  have h := live_config_roundtrip bLive fsRound simRound fsRoundOut (by decide)
  exact ⟨h.1, h.2 0 (NewBank "left" 8) (by decide)⟩

/-- Counterexample to claim C2 as stated: when the write of `live = "0"`
fails, `cleanupConfigfs` aborts at once — the state comes back unchanged
(no removal step is attempted) even though a bank directory exists and a
full teardown pass would have changed the state. -/
theorem cleanup_live_write_abort_cex :
    simTear.cleanupConfigfs fsTearLiveFails
      = (fsTearLiveFails,
        some "open /sys/kernel/config/gpio-sim/s1/live: no such file or directory")
    ∧ fsTearLiveFails.stat "/sys/kernel/config/gpio-sim/s1/bank0" = true
    ∧ (cleanupChips simTear.configfsPath fsTearLiveFails 0 simTear.Chips).remove
        simTear.configfsPath ≠ fsTearLiveFails := by decide

/-- Claim C2 (amended): a failure to write `live = "0"` aborts
`cleanupConfigfs` — the error is returned at once and no removal step is
attempted.  When the `live` write succeeds, the removal steps all run and
never produce an error; a bank whose directory is already missing is
skipped, leaving the state unchanged; and `Close` discards the
`cleanupConfigfs` error and clears the chip list, so a second `Close`
after the root is gone is a caller-visible no-op, not an error. -/
theorem cleanup_best_effort :
    (∀ (s : Sim) (fs : FS) (e : String),
      writeAttr fs s.configfsPath "live" "0" = .error e →
      s.cleanupConfigfs fs = (fs, some e))
    ∧ (∀ (s : Sim) (fs fs1 : FS),
      writeAttr fs s.configfsPath "live" "0" = .ok fs1 →
      s.cleanupConfigfs fs
        = ((cleanupChips s.configfsPath fs1 0 s.Chips).remove s.configfsPath, none))
    ∧ (∀ (cp : String) (fs : FS) (i : Nat) (c : Chip),
      fs.stat (pjoin cp ("bank" ++ toString i)) = false →
      cleanupChip cp fs i c = fs)
    ∧ (∀ (s : Sim) (fs : FS),
      fs.dirs.contains s.configfsPath = false →
      (s.Close fs).2 = fs ∧ (s.Close fs).1.Chips = []) := by
  refine ⟨?_, ?_, ?_, ?_⟩
  · intro s fs e h
    unfold Sim.cleanupConfigfs
    rw [h]
  · intro s fs fs1 h
    unfold Sim.cleanupConfigfs
    rw [h]
  · intro cp fs i c h
    unfold cleanupChip
    rw [h]
    simp
  · intro s fs h
    unfold Sim.Close Sim.cleanupConfigfs writeAttr
    rw [h]
    simp

/-- Witness for C2 (amended): the four behaviors at concrete states. -/
theorem cleanup_best_effort_witness :
    simTear.cleanupConfigfs fsTearLiveFails
      = (fsTearLiveFails,
        some "open /sys/kernel/config/gpio-sim/s1/live: no such file or directory")
    ∧ simTear.cleanupConfigfs fsTearLiveOk
      = ((cleanupChips simTear.configfsPath fsTearAfterLive 0 simTear.Chips).remove
          simTear.configfsPath, none)
    ∧ cleanupChip "/sys/kernel/config/gpio-sim/s1" fsTearGone 0 (initialChip bankHogged)
      = fsTearGone
    ∧ (simTear.Close fsTearGone).2 = fsTearGone
    ∧ (simTear.Close fsTearGone).1.Chips = [] :=
  ⟨cleanup_best_effort.1 simTear fsTearLiveFails
      "open /sys/kernel/config/gpio-sim/s1/live: no such file or directory" (by decide),
   cleanup_best_effort.2.1 simTear fsTearLiveOk fsTearAfterLive (by decide),
   cleanup_best_effort.2.2.1 "/sys/kernel/config/gpio-sim/s1" fsTearGone 0
     (initialChip bankHogged) (by decide),
   (cleanup_best_effort.2.2.2 simTear fsTearGone (by decide)).1,
   (cleanup_best_effort.2.2.2 simTear fsTearGone (by decide)).2⟩

/-- Witness for C10: the out-of-vocabulary level 2 succeeds and writes
`"pull-down"`. -/
theorem setPull_level_vocabulary_witness :
    Chip.SetPull chipW fsPull 3 2 ≠ .error "open /sys/devices/platform/gpio-sim.0/gpiochip0/sim_gpio3/pull: no such file or directory"
    ∧ lookupFile ((Chip.SetPull chipW fsPull 3 2).toOption.getD emptyFS).files
        "/sys/devices/platform/gpio-sim.0/gpiochip0/sim_gpio3/pull"
      = some "pull-down" := by
  obtain ⟨fs1, h1, h2⟩ := setPull_level_vocabulary chipW fsPull 3 2 (by decide) (by decide)
  rw [h1]
  refine ⟨by simp, ?_⟩
  simpa [LevelActive] using h2

end Gpiosim
